import Mathlib

/-!
# Verification of the sugma UV-remapping pipeline

A shallow embedding of `src/main.rs` (marker locator and affine solver) together
with theorems settling the specification claims.

Conventions of the embedding:

* Rust `f64` arithmetic is modelled by exact real arithmetic (`ℝ`); `f64::atan2`
  becomes the mathematical `atan2` defined below via `Real.arctan`.
* `nalgebra` vectors/matrices become the record types `Vec2`, `Vec3`, `Mat2`,
  `Mat3` with componentwise definitions matching `nalgebra`'s row-major
  constructors (`Matrix2::new`, `Matrix3::new`) and its 2×2
  `try_inverse` (which fails exactly when the determinant is zero).
* `Option.map` models the `try_inverse().unwrap()` call: `none` is the panic.
* A Rust `Vec` push loop becomes a `List` built by `flatMap`/`filterMap`;
  `slice::sort_by` (a stable sort) is modelled by `List.insertionSort`, which is
  proved below to be stable for the precedence comparator (a stable sort is
  extensionally unique, so this pins down the same function).
* Rust tuple fields `t.0`, `t.1`, `t.2` of a `Triangle` are `t.1`, `t.2.1`,
  `t.2.2` of the Lean product.
-/

/-! ## Marker locator: `find_markers`, `get_precedence` (main.rs lines 54–103) -/

/-- An 8-bit RGB pixel, as in `image::Rgb<u8>`. -/
structure Rgb where
  r : Fin 256
  g : Fin 256
  b : Fin 256
deriving DecidableEq

/-- `struct Position { x: u32, y: u32 }` (main.rs lines 11–15). -/
structure Position where
  x : ℕ
  y : ℕ
deriving DecidableEq

/-- The local `struct Marker { pixel, position }` of `find_markers`
(main.rs lines 62–65). -/
structure Marker where
  pixel : Rgb
  position : Position
deriving DecidableEq

/-- A decoded RGB raster: dimensions plus a pixel lookup, as consumed by
`find_markers` via `image.dimensions()` and `image.get_pixel(x, y)`. -/
structure Image where
  width : ℕ
  height : ℕ
  pixel : ℕ → ℕ → Rgb

/-- `let ignore_color = Rgb { 0: [0; 3] }` (main.rs line 60). -/
def ignore_color : Rgb := ⟨0, 0, 0⟩

/-- `get_precedence` (main.rs lines 97–103): `r + 256 * g + 256 * 256 * b`,
computed in `u32`; the maximum value 16777215 fits, so `ℕ` is exact. -/
def get_precedence (pixel : Rgb) : ℕ :=
  (pixel.r : ℕ) + 256 * (pixel.g : ℕ) + 256 * 256 * (pixel.b : ℕ)

/-- The discovery double loop of `find_markers` (main.rs lines 70–83):
column-major scan (`for x { for y { … } }`), keeping every pixel that is not
exactly `ignore_color`, in push order. -/
def discovered_markers (image : Image) : List Marker :=
  (List.range image.width).flatMap fun x =>
    (List.range image.height).filterMap fun y =>
      if image.pixel x y ≠ ignore_color then
        some ⟨image.pixel x y, ⟨x, y⟩⟩
      else
        none

/-- The comparator passed to `markers.sort_by` (main.rs lines 86–91):
ascending comparison of `get_precedence`. -/
def marker_le (a b : Marker) : Prop :=
  get_precedence a.pixel ≤ get_precedence b.pixel

instance : DecidableRel marker_le := fun _ _ => Nat.decLe _ _

instance : IsTotal Marker marker_le := ⟨fun _ _ => Nat.le_total _ _⟩

instance : IsTrans Marker marker_le := ⟨fun _ _ _ => Nat.le_trans⟩

/-- `find_markers` (main.rs lines 58–95): scan, stable sort by precedence
(`slice::sort_by` is stable; see the stability lemmas below), then discard the
color information keeping only positions. -/
def find_markers (image : Image) : List Position :=
  ((discovered_markers image).insertionSort marker_le).map Marker.position

/-! ## The `main` pipeline around the locator (main.rs lines 26–52) -/

/-- How `main` can fail after the locator: Rust `positions[i]` on a too-short
vector panics with an index-out-of-bounds; the spec instead calls for a checked
`insufficient_markers` error. The code contains no such check, so only the
first constructor is ever produced. -/
inductive PipelineError where
  | index_out_of_bounds : PipelineError
  | insufficient_markers : PipelineError
deriving DecidableEq

/-! ## Affine solver: `get_transform` and its linear algebra (main.rs 105–195) -/

noncomputable section

open Real

/-- `nalgebra::Vector2<f64>`. -/
structure Vec2 where
  x : ℝ
  y : ℝ

/-- `nalgebra::Vector3<f64>`. -/
structure Vec3 where
  x : ℝ
  y : ℝ
  z : ℝ

/-- `nalgebra::Matrix2<f64>`; fields follow `Matrix2::new(m11, m12, m21, m22)`
(row-major). -/
structure Mat2 where
  m11 : ℝ
  m12 : ℝ
  m21 : ℝ
  m22 : ℝ

/-- `nalgebra::Matrix3<f64>`; fields follow `Matrix3::new` (row-major). -/
structure Mat3 where
  m11 : ℝ
  m12 : ℝ
  m13 : ℝ
  m21 : ℝ
  m22 : ℝ
  m23 : ℝ
  m31 : ℝ
  m32 : ℝ
  m33 : ℝ

/-- `type Triangle = (Vector2<f64>, Vector2<f64>, Vector2<f64>)` (main.rs line 9). -/
abbrev Triangle := Vec2 × Vec2 × Vec2

instance : Sub Vec2 := ⟨fun a b => ⟨a.x - b.x, a.y - b.y⟩⟩

@[simp] theorem Vec2.sub_def (a b : Vec2) : a - b = ⟨a.x - b.x, a.y - b.y⟩ := rfl

/-- 2×2 matrix · 2-vector. -/
def Mat2.mulVec (m : Mat2) (v : Vec2) : Vec2 :=
  ⟨m.m11 * v.x + m.m12 * v.y, m.m21 * v.x + m.m22 * v.y⟩

instance : HMul Mat2 Vec2 Vec2 := ⟨Mat2.mulVec⟩

@[simp] theorem mat2_mulVec_eq (m : Mat2) (v : Vec2) : m * v = m.mulVec v := rfl

/-- 3×3 matrix · 3-vector. -/
def Mat3.mulVec (m : Mat3) (v : Vec3) : Vec3 :=
  ⟨m.m11 * v.x + m.m12 * v.y + m.m13 * v.z,
   m.m21 * v.x + m.m22 * v.y + m.m23 * v.z,
   m.m31 * v.x + m.m32 * v.y + m.m33 * v.z⟩

instance : HMul Mat3 Vec3 Vec3 := ⟨Mat3.mulVec⟩

@[simp] theorem mat3_mulVec_eq (m : Mat3) (v : Vec3) : m * v = m.mulVec v := rfl

/-- 3×3 matrix product. -/
def Mat3.mul (a b : Mat3) : Mat3 :=
  ⟨a.m11 * b.m11 + a.m12 * b.m21 + a.m13 * b.m31,
   a.m11 * b.m12 + a.m12 * b.m22 + a.m13 * b.m32,
   a.m11 * b.m13 + a.m12 * b.m23 + a.m13 * b.m33,
   a.m21 * b.m11 + a.m22 * b.m21 + a.m23 * b.m31,
   a.m21 * b.m12 + a.m22 * b.m22 + a.m23 * b.m32,
   a.m21 * b.m13 + a.m22 * b.m23 + a.m23 * b.m33,
   a.m31 * b.m11 + a.m32 * b.m21 + a.m33 * b.m31,
   a.m31 * b.m12 + a.m32 * b.m22 + a.m33 * b.m32,
   a.m31 * b.m13 + a.m32 * b.m23 + a.m33 * b.m33⟩

instance : Mul Mat3 := ⟨Mat3.mul⟩

@[simp] theorem mat3_mul_eq (a b : Mat3) : a * b = a.mul b := rfl

/-- The 3×3 identity matrix. -/
def idMat3 : Mat3 := ⟨1, 0, 0, 0, 1, 0, 0, 0, 1⟩

/-- `f64::atan2(self = y, other = x)` for real (non-NaN, unsigned-zero)
arguments: the standard mathematical atan2, with `atan2 0 0 = 0`. -/
def atan2 (y x : ℝ) : ℝ :=
  if 0 < x then arctan (y / x)
  else if x < 0 then
    (if 0 ≤ y then arctan (y / x) + π else arctan (y / x) - π)
  else
    (if 0 < y then π / 2 else if y < 0 then -(π / 2) else 0)

/-- `Matrix3::new_translation(&v)`: homogeneous 2D translation. -/
def Mat3.new_translation (v : Vec2) : Mat3 :=
  ⟨1, 0, v.x, 0, 1, v.y, 0, 0, 1⟩

/-- `Matrix3::new_rotation(angle)`: homogeneous 2D rotation about the origin. -/
def Mat3.new_rotation (angle : ℝ) : Mat3 :=
  ⟨cos angle, -sin angle, 0, sin angle, cos angle, 0, 0, 0, 1⟩

/-- `pad_matrix` (main.rs lines 113–118). -/
def pad_matrix (matrix : Mat2) : Mat3 :=
  ⟨matrix.m11, matrix.m12, 0, matrix.m21, matrix.m22, 0, 0, 0, 1⟩

/-- `pad_vector` (main.rs lines 125–128). -/
def pad_vector (vector : Vec2) : Vec3 :=
  ⟨vector.x, vector.y, 1⟩

/-- 2×2 determinant. -/
def Mat2.det (m : Mat2) : ℝ := m.m11 * m.m22 - m.m12 * m.m21

/-- `nalgebra`'s 2×2 inverse formula `[[m22, -m12], [-m21, m11]] / det`
(meaningful when `det ≠ 0`). -/
def Mat2.inv (m : Mat2) : Mat2 :=
  ⟨m.m22 / m.det, -m.m12 / m.det, -m.m21 / m.det, m.m11 / m.det⟩

/-- `Matrix2::try_inverse`: `None` exactly when the determinant is zero,
otherwise the inverse. -/
def Mat2.try_inverse (m : Mat2) : Option Mat2 :=
  if m.det = 0 then none else some m.inv

/-- `make_triangle` (main.rs lines 105–111): positions cast to `f64`
(`u32 → f64` is exact, so the cast is the `ℕ → ℝ` coercion). -/
def make_triangle (a b c : Position) : Triangle :=
  (⟨(a.x : ℝ), (a.y : ℝ)⟩, ⟨(b.x : ℝ), (b.y : ℝ)⟩, ⟨(c.x : ℝ), (c.y : ℝ)⟩)

/-- `main` (main.rs lines 38–39): the two `make_triangle` calls, both on
`&positions[0], &positions[1], &positions[2]` of the single decoded image,
with no prior length check. An out-of-range `positions[i]` is the Rust
indexing panic, modelled as `PipelineError.index_out_of_bounds`. -/
def main_triangles (positions : List Position) :
    Except PipelineError (Triangle × Triangle) :=
  match positions[0]?, positions[1]?, positions[2]? with
  | some a, some b, some c =>
      .ok (make_triangle a b c, make_triangle a b c)
  | _, _, _ => .error .index_out_of_bounds

/-! ### `get_transform` (main.rs lines 130–195), one definition per `let` -/

/-- `translation_matrix` (main.rs lines 133–134), built from
`translation_vector = output.0 - input.0`. -/
def translation_matrix (input output : Triangle) : Mat3 :=
  Mat3.new_translation (output.1 - input.1)

/-- The first edge `t.1 - t.0` of a triangle: `input_01` / `output_01`
(main.rs lines 137–138). -/
def edge_01 (t : Triangle) : Vec2 :=
  t.2.1 - t.1

/-- `angle_difference` (main.rs lines 140–143):
`atan2` of each first edge, destination minus source. -/
def angle_difference (input output : Triangle) : ℝ :=
  atan2 (edge_01 output).y (edge_01 output).x -
    atan2 (edge_01 input).y (edge_01 input).x

/-- `rotation_matrix` (main.rs line 144). -/
def rotation_matrix (input output : Triangle) : Mat3 :=
  Mat3.new_rotation (angle_difference input output)

/-- `rot_270_matrix` (main.rs line 147): the fixed operator `[[0,1],[1,0]]`. -/
def rot_270_matrix : Mat2 := ⟨0, 1, 1, 0⟩

/-- The un-inverted 2×2 change-of-basis matrix `B` (main.rs lines 148–155):
columns are `output_01` and `output_01_perpendicular = rot_270_matrix * output_01`. -/
def change_basis_2d (output : Triangle) : Mat2 :=
  ⟨(edge_01 output).x, (rot_270_matrix * edge_01 output).x,
   (edge_01 output).y, (rot_270_matrix * edge_01 output).y⟩

/-- `unchange_basis_matrix` (main.rs lines 159–164). -/
def unchange_basis_matrix (output : Triangle) : Mat3 :=
  pad_matrix (change_basis_2d output)

/-- `change_basis_matrix` (main.rs lines 150–157, 166): the padded inverse of
`change_basis_2d`; the value the unwrapped `try_inverse` yields when it
succeeds. -/
def change_basis_matrix (output : Triangle) : Mat3 :=
  pad_matrix (change_basis_2d output).inv

/-- `let m = change_basis_matrix * rotation_matrix * translation_matrix`
(main.rs line 169). -/
def frame_matrix (input output : Triangle) : Mat3 :=
  change_basis_matrix output * rotation_matrix input output *
    translation_matrix input output

/-- `input_1_in_01` (main.rs line 171). -/
def input_1_in_01 (input output : Triangle) : Vec3 :=
  frame_matrix input output * pad_vector input.2.1

/-- `input_2_in_01` (main.rs line 172). -/
def input_2_in_01 (input output : Triangle) : Vec3 :=
  frame_matrix input output * pad_vector input.2.2

/-- `output_1_in_01` (main.rs line 173). -/
def output_1_in_01 (input output : Triangle) : Vec3 :=
  frame_matrix input output * pad_vector output.2.1

/-- `output_2_in_01` (main.rs line 174). -/
def output_2_in_01 (input output : Triangle) : Vec3 :=
  frame_matrix input output * pad_vector output.2.2

/-- `scale_01` (main.rs line 177). -/
def scale_01 (input output : Triangle) : ℝ :=
  (output_1_in_01 input output).x / (input_1_in_01 input output).x

/-- `scale_01_perpendicular` (main.rs line 178). -/
def scale_01_perpendicular (input output : Triangle) : ℝ :=
  (output_2_in_01 input output).y / (input_2_in_01 input output).y

/-- `shear_01` (main.rs line 179); note the denominator is the *output*
in-frame `y`. -/
def shear_01 (input output : Triangle) : ℝ :=
  ((output_2_in_01 input output).x -
      (input_2_in_01 input output).x * scale_01 input output) /
    (output_2_in_01 input output).y

/-- `scale_matrix` (main.rs lines 181–182). -/
def scale_matrix (input output : Triangle) : Mat3 :=
  pad_matrix ⟨scale_01 input output, shear_01 input output, 0,
    scale_01_perpendicular input output⟩

/-- `get_transform` (main.rs lines 131–195). The `try_inverse().unwrap()` on
line 156–157 is the only fallible step: `none` models the unwrap panic, and on
success the unwrapped value is exactly `(change_basis_2d output).inv`, which is
what `change_basis_matrix` (and through it every later step) uses. -/
def get_transform (input output : Triangle) : Option Mat3 :=
  ((change_basis_2d output).try_inverse).map fun _ =>
    unchange_basis_matrix output * scale_matrix input output *
      change_basis_matrix output * rotation_matrix input output *
      translation_matrix input output

/-- The conditions under which the solver "succeeds" in `f64`: the basis is
invertible (no unwrap panic) and none of the three divisions of the
scale/shear step has a zero denominator (no `Inf`/`NaN` entries). -/
def solver_succeeds (input output : Triangle) : Prop :=
  (change_basis_2d output).det ≠ 0 ∧
    (input_1_in_01 input output).x ≠ 0 ∧
    (input_2_in_01 input output).y ≠ 0 ∧
    (output_2_in_01 input output).y ≠ 0

/-- The degeneracy notion used by the spec's claims: first two vertices
coincide, or the three vertices are collinear. -/
def Triangle.degenerate (t : Triangle) : Prop :=
  t.1 = t.2.1 ∨
    (t.2.1.x - t.1.x) * (t.2.2.y - t.1.y) -
        (t.2.1.y - t.1.y) * (t.2.2.x - t.1.x) = 0

/-! ### Basic lemmas about the solver -/

theorem get_transform_eq_of_det_ne_zero (input output : Triangle)
    (h : (change_basis_2d output).det ≠ 0) :
    get_transform input output =
      some (unchange_basis_matrix output * scale_matrix input output *
        change_basis_matrix output * rotation_matrix input output *
        translation_matrix input output) := by
  rw [get_transform, Mat2.try_inverse, if_neg h, Option.map_some']

theorem get_transform_eq_none_iff (input output : Triangle) :
    get_transform input output = none ↔ (change_basis_2d output).det = 0 := by
  rw [get_transform, Mat2.try_inverse]
  by_cases h : (change_basis_2d output).det = 0 <;> simp [h]

theorem atan2_zero_of_pos (x : ℝ) (h : 0 < x) : atan2 0 x = 0 := by
  rw [atan2, if_pos h, zero_div, Real.arctan_zero]

theorem atan2_zero_zero : atan2 0 0 = 0 := by
  norm_num [atan2]

/-- The determinant of the change-of-basis matrix is `x² - y²` of the
destination's first edge (because the "perpendicular" operator is the
reflection `(x, y) ↦ (y, x)`). -/
theorem change_basis_2d_det (output : Triangle) :
    (change_basis_2d output).det =
      (edge_01 output).x ^ 2 - (edge_01 output).y ^ 2 := by
  simp [change_basis_2d, Mat2.det, rot_270_matrix, Mat2.mulVec]
  ring

theorem Mat3.mul_id (a : Mat3) : a * idMat3 = a := by
  simp [Mat3.mul, idMat3]

theorem Mat3.id_mul (a : Mat3) : idMat3 * a = a := by
  simp [Mat3.mul, idMat3]

/-- A 2×2 matrix with nonzero determinant times its `nalgebra` inverse is the
identity (padded to 3×3). -/
theorem Mat2.mul_inv_pad (m : Mat2) (h : m.det ≠ 0) :
    pad_matrix m * pad_matrix m.inv = idMat3 := by
  rcases m with ⟨a, b, c, d⟩
  have hd : a * d - b * c ≠ 0 := h
  simp only [Mat2.inv, Mat2.det, pad_matrix, mat3_mul_eq, Mat3.mul, idMat3,
    Mat3.mk.injEq]
  refine ⟨?_, ?_, ?_, ?_, ?_, ?_, ?_, ?_, ?_⟩ <;> field_simp <;> ring

/-! ## Claim theorems -/

/-- C10: for source triangle (0,0),(1,0),(0,1) and destination triangle
(0,0),(2,0),(0,1), the solver returns the matrix `diag(2,1,1)` — it scales x
by 2 and leaves y and translation unchanged — and applying it to (1,0) yields
(2,0), applying it to (0,1) yields (0,1). Exact arithmetic, so certainly
within floating-point tolerance. -/
theorem C10_example_scale_x :
    (get_transform (⟨0, 0⟩, ⟨1, 0⟩, ⟨0, 1⟩) (⟨0, 0⟩, ⟨2, 0⟩, ⟨0, 1⟩)).map
        (fun M => (M, M * pad_vector ⟨1, 0⟩, M * pad_vector ⟨0, 1⟩)) =
      some (⟨2, 0, 0, 0, 1, 0, 0, 0, 1⟩, ⟨2, 0, 1⟩, ⟨0, 1, 1⟩) := by
  have h1 : atan2 (0 : ℝ) 1 = 0 := atan2_zero_of_pos 1 one_pos
  have h2 : atan2 (0 : ℝ) 2 = 0 := atan2_zero_of_pos 2 two_pos
  simp only [get_transform, change_basis_2d, edge_01, rot_270_matrix, Vec2.sub_def,
    mat2_mulVec_eq, Mat2.mulVec, Mat2.try_inverse, Mat2.det, Mat2.inv,
    unchange_basis_matrix, change_basis_matrix, scale_matrix, scale_01, shear_01,
    scale_01_perpendicular, output_1_in_01, output_2_in_01, input_1_in_01,
    input_2_in_01, frame_matrix, rotation_matrix, translation_matrix,
    Mat3.new_translation, Mat3.new_rotation, angle_difference, pad_matrix, pad_vector,
    mat3_mul_eq, mat3_mulVec_eq, Mat3.mul, Mat3.mulVec]
  norm_num [h1, h2]

/-- C1 (code bug evaluation): on the non-degenerate pair
source (0,0),(1,0),(1,1) → destination (0,0),(1,0),(0,2) the solved matrix
sends source vertex 2, i.e. (1,1), to (1/2, 2) instead of the destination
vertex 2 = (0,2): the solver is not exact even in exact arithmetic. -/
theorem C1_solver_not_exact :
    ¬Triangle.degenerate (⟨0, 0⟩, ⟨1, 0⟩, ⟨1, 1⟩) ∧
      ¬Triangle.degenerate (⟨0, 0⟩, ⟨1, 0⟩, ⟨0, 2⟩) ∧
      (get_transform (⟨0, 0⟩, ⟨1, 0⟩, ⟨1, 1⟩) (⟨0, 0⟩, ⟨1, 0⟩, ⟨0, 2⟩)).map
          (fun M => M * pad_vector ⟨1, 1⟩) = some ⟨1 / 2, 2, 1⟩ ∧
      (⟨1 / 2, 2, 1⟩ : Vec3) ≠ pad_vector ⟨0, 2⟩ := by
  refine ⟨?_, ?_, ?_, ?_⟩
  · norm_num [Triangle.degenerate, Vec2.mk.injEq]
  · norm_num [Triangle.degenerate, Vec2.mk.injEq]
  · have h1 : atan2 (0 : ℝ) 1 = 0 := atan2_zero_of_pos 1 one_pos
    simp only [get_transform, change_basis_2d, edge_01, rot_270_matrix, Vec2.sub_def,
      mat2_mulVec_eq, Mat2.mulVec, Mat2.try_inverse, Mat2.det, Mat2.inv,
      unchange_basis_matrix, change_basis_matrix, scale_matrix, scale_01, shear_01,
      scale_01_perpendicular, output_1_in_01, output_2_in_01, input_1_in_01,
      input_2_in_01, frame_matrix, rotation_matrix, translation_matrix,
      Mat3.new_translation, Mat3.new_rotation, angle_difference, pad_matrix, pad_vector,
      mat3_mul_eq, mat3_mulVec_eq, Mat3.mul, Mat3.mulVec]
    norm_num [h1]
  · norm_num [pad_vector, Vec3.mk.injEq]

/-- C7 (code bug evaluation): for the non-degenerate pair
A = (0,0),(1,0),(1,1) and B = (0,0),(1,0),(0,2) both solves succeed, yet the
product of the A→B matrix and the B→A matrix is the shear
`[[1, 3/4], [0, 1]]` (padded), not the identity. -/
theorem C7_not_composable :
    ((get_transform (⟨0, 0⟩, ⟨1, 0⟩, ⟨1, 1⟩) (⟨0, 0⟩, ⟨1, 0⟩, ⟨0, 2⟩)).bind fun m1 =>
        (get_transform (⟨0, 0⟩, ⟨1, 0⟩, ⟨0, 2⟩) (⟨0, 0⟩, ⟨1, 0⟩, ⟨1, 1⟩)).map fun m2 =>
          m1 * m2) =
        some ⟨1, 3 / 4, 0, 0, 1, 0, 0, 0, 1⟩ ∧
      (⟨1, 3 / 4, 0, 0, 1, 0, 0, 0, 1⟩ : Mat3) ≠ idMat3 := by
  have h1 : atan2 (0 : ℝ) 1 = 0 := atan2_zero_of_pos 1 one_pos
  have hAB : get_transform (⟨0, 0⟩, ⟨1, 0⟩, ⟨1, 1⟩) (⟨0, 0⟩, ⟨1, 0⟩, ⟨0, 2⟩) =
      some ⟨1, -(1 / 2), 0, 0, 2, 0, 0, 0, 1⟩ := by
    simp only [get_transform, change_basis_2d, edge_01, rot_270_matrix, Vec2.sub_def,
      mat2_mulVec_eq, Mat2.mulVec, Mat2.try_inverse, Mat2.det, Mat2.inv,
      unchange_basis_matrix, change_basis_matrix, scale_matrix, scale_01, shear_01,
      scale_01_perpendicular, output_1_in_01, output_2_in_01, input_1_in_01,
      input_2_in_01, frame_matrix, rotation_matrix, translation_matrix,
      Mat3.new_translation, Mat3.new_rotation, angle_difference, pad_matrix, pad_vector,
      mat3_mul_eq, mat3_mulVec_eq, Mat3.mul, Mat3.mulVec]
    norm_num [h1]
  have hBA : get_transform (⟨0, 0⟩, ⟨1, 0⟩, ⟨0, 2⟩) (⟨0, 0⟩, ⟨1, 0⟩, ⟨1, 1⟩) =
      some ⟨1, 1, 0, 0, 1 / 2, 0, 0, 0, 1⟩ := by
    simp only [get_transform, change_basis_2d, edge_01, rot_270_matrix, Vec2.sub_def,
      mat2_mulVec_eq, Mat2.mulVec, Mat2.try_inverse, Mat2.det, Mat2.inv,
      unchange_basis_matrix, change_basis_matrix, scale_matrix, scale_01, shear_01,
      scale_01_perpendicular, output_1_in_01, output_2_in_01, input_1_in_01,
      input_2_in_01, frame_matrix, rotation_matrix, translation_matrix,
      Mat3.new_translation, Mat3.new_rotation, angle_difference, pad_matrix, pad_vector,
      mat3_mul_eq, mat3_mulVec_eq, Mat3.mul, Mat3.mulVec]
    norm_num [h1]
  refine ⟨?_, ?_⟩
  · rw [hAB, hBA, Option.some_bind, Option.map_some']
    simp only [mat3_mul_eq, Mat3.mul]
    norm_num
  · norm_num [idMat3, Mat3.mk.injEq]

/-- C2 counterexample: the source triangle (0,0),(0,0),(1,1) is degenerate
(vertex 0 = vertex 1), yet with destination (0,0),(1,0),(0,1) the solver does
not reject it — `get_transform` returns a matrix — and the denominator
`input_1_in_01.x` of the first scale division is exactly 0, which in `f64`
produces an infinite entry rather than an error. -/
theorem C2_counterexample :
    Triangle.degenerate (⟨0, 0⟩, ⟨0, 0⟩, ⟨1, 1⟩) ∧
      get_transform (⟨0, 0⟩, ⟨0, 0⟩, ⟨1, 1⟩) (⟨0, 0⟩, ⟨1, 0⟩, ⟨0, 1⟩) ≠ none ∧
      (input_1_in_01 (⟨0, 0⟩, ⟨0, 0⟩, ⟨1, 1⟩) (⟨0, 0⟩, ⟨1, 0⟩, ⟨0, 1⟩)).x = 0 := by
  refine ⟨Or.inl rfl, ?_, ?_⟩
  · rw [Ne, get_transform_eq_none_iff, change_basis_2d_det]
    norm_num [edge_01, Vec2.sub_def]
  · have h1 : atan2 (0 : ℝ) 1 = 0 := atan2_zero_of_pos 1 one_pos
    have h0 : atan2 (0 : ℝ) 0 = 0 := atan2_zero_zero
    simp only [change_basis_2d, edge_01, rot_270_matrix, Vec2.sub_def,
      mat2_mulVec_eq, Mat2.mulVec, Mat2.det, Mat2.inv,
      change_basis_matrix, input_1_in_01, frame_matrix, rotation_matrix,
      translation_matrix, Mat3.new_translation, Mat3.new_rotation, angle_difference,
      pad_matrix, pad_vector, mat3_mul_eq, mat3_mulVec_eq, Mat3.mul, Mat3.mulVec]
    norm_num [h1, h0]

/-- C2 amended: the solver rejects its input (the `unwrap` panic on the basis
inverse) exactly when the destination first edge `e1 = output.1 - output.0`
satisfies `e1.x² = e1.y²`; every other input — including degenerate *source*
triangles, which then make a scale/shear denominator zero (`Inf`/`NaN` in
`f64`) — yields a matrix. -/
theorem C2_amended_reject_iff (input output : Triangle) :
    get_transform input output = none ↔
      (edge_01 output).x ^ 2 = (edge_01 output).y ^ 2 := by
  rw [get_transform_eq_none_iff, change_basis_2d_det, sub_eq_zero]

/-- C3 counterexample: for the destination triangle (0,0),(1,1),(0,5) the
edge `e1 = (1,1)` is nonzero, yet the change-of-basis matrix
`B = [[1,1],[1,1]]` is non-invertible (zero determinant): `B` singular is not
equivalent to `e1 = 0`. -/
theorem C3_counterexample :
    (change_basis_2d (⟨0, 0⟩, ⟨1, 1⟩, ⟨0, 5⟩)).det = 0 ∧
      edge_01 (⟨0, 0⟩, ⟨1, 1⟩, ⟨0, 5⟩) ≠ ⟨0, 0⟩ := by
  constructor
  · rw [change_basis_2d_det]
    norm_num [edge_01, Vec2.sub_def]
  · norm_num [edge_01, Vec2.sub_def, Vec2.mk.injEq]

/-- C3 amended: `B` is non-invertible iff the destination first edge satisfies
`e1.x² = e1.y²` (i.e. `e1.x = ±e1.y`); the zero vector is one such case but
not the only one. -/
theorem C3_amended_singular_iff (output : Triangle) :
    (change_basis_2d output).det = 0 ↔
      (edge_01 output).x ^ 2 = (edge_01 output).y ^ 2 := by
  rw [change_basis_2d_det, sub_eq_zero]

/-- C4 counterexample: with an empty marker list (fewer than 3 markers) the
pipeline does not surface an insufficient-markers error; it hits the
out-of-bounds indexing panic of `positions[0]`. -/
theorem C4_counterexample :
    ([] : List Position).length < 3 ∧
      main_triangles [] ≠ Except.error PipelineError.insufficient_markers := by
  refine ⟨by norm_num, ?_⟩
  have h : main_triangles [] = Except.error PipelineError.index_out_of_bounds := rfl
  rw [h]
  simp

/-- C4 amended: `main` indexes `positions[0..2]` with no length check, so any
run with fewer than 3 markers ends in the indexing panic, never in a reported
insufficient-markers error. -/
theorem C4_amended_panics (positions : List Position) (h : positions.length < 3) :
    main_triangles positions = Except.error PipelineError.index_out_of_bounds := by
  have h2 : positions[2]? = none := List.getElem?_eq_none (by omega)
  rw [main_triangles, h2]
  cases positions[0]? <;> cases positions[1]? <;> rfl

/-- Witness for `C4_amended_panics` at the empty list. -/
theorem C4_amended_panics_witness :
    ([] : List Position).length < 3 ∧
      main_triangles [] = Except.error PipelineError.index_out_of_bounds :=
  ⟨by norm_num, C4_amended_panics [] (by norm_num)⟩

/-- C5: whenever `main`'s triangle-building step succeeds, the input and
output triangles it passes to the solver are identical, because both are
built from `positions[0], positions[1], positions[2]` of the single decoded
image. -/
theorem C5_identical_triangles (positions : List Position)
    (pr : Triangle × Triangle) (h : main_triangles positions = .ok pr) :
    pr.1 = pr.2 := by
  cases ha : positions[0]? <;> cases hb : positions[1]? <;> cases hc : positions[2]? <;>
    rw [main_triangles, ha, hb, hc] at h <;>
    simp only [reduceCtorEq] at h
  rw [Except.ok.injEq] at h
  rw [← h]

/-- C6: whenever the solver succeeds on a pair of identical triangles (basis
invertible, no zero denominators — i.e. no panic and no `Inf`/`NaN`), the
returned matrix is exactly the 3×3 identity. -/
theorem C6_identity_case (t : Triangle) (h : solver_succeeds t t) :
    get_transform t t = some idMat3 := by
  obtain ⟨hdet, h1, h2, _h3⟩ := h
  have hT : translation_matrix t t = idMat3 := by
    simp [translation_matrix, Mat3.new_translation, idMat3]
  have hR : rotation_matrix t t = idMat3 := by
    simp [rotation_matrix, angle_difference, Mat3.new_rotation, idMat3]
  have e1 : output_1_in_01 t t = input_1_in_01 t t := rfl
  have e2 : output_2_in_01 t t = input_2_in_01 t t := rfl
  have hs1 : scale_01 t t = 1 := by rw [scale_01, e1, div_self h1]
  have hs2 : scale_01_perpendicular t t = 1 := by
    rw [scale_01_perpendicular, e2, div_self h2]
  have hsh : shear_01 t t = 0 := by
    rw [shear_01, e2, hs1, mul_one, sub_self, zero_div]
  have hS : scale_matrix t t = idMat3 := by
    rw [scale_matrix, hs1, hs2, hsh]
    rfl
  rw [get_transform_eq_of_det_ne_zero _ _ hdet, hS, hR, hT, Mat3.mul_id,
    Mat3.mul_id, Mat3.mul_id, unchange_basis_matrix, change_basis_matrix,
    Mat2.mul_inv_pad _ hdet]

/-- Witness for `C6_identity_case` at the triangle (0,0),(1,0),(0,1). -/
theorem C6_identity_case_witness :
    solver_succeeds (⟨0, 0⟩, ⟨1, 0⟩, ⟨0, 1⟩) (⟨0, 0⟩, ⟨1, 0⟩, ⟨0, 1⟩) ∧
      get_transform (⟨0, 0⟩, ⟨1, 0⟩, ⟨0, 1⟩) (⟨0, 0⟩, ⟨1, 0⟩, ⟨0, 1⟩) =
        some idMat3 := by
  have ha : angle_difference ((⟨0, 0⟩, ⟨1, 0⟩, ⟨0, 1⟩) : Triangle)
      (⟨0, 0⟩, ⟨1, 0⟩, ⟨0, 1⟩) = 0 := sub_self _
  have hs : solver_succeeds (⟨0, 0⟩, ⟨1, 0⟩, ⟨0, 1⟩) (⟨0, 0⟩, ⟨1, 0⟩, ⟨0, 1⟩) := by
    refine ⟨?_, ?_, ?_, ?_⟩
    · rw [change_basis_2d_det]
      norm_num [edge_01, Vec2.sub_def]
    · simp only [input_1_in_01, frame_matrix, change_basis_matrix, rotation_matrix,
        translation_matrix, Mat3.new_translation, Mat3.new_rotation, ha,
        change_basis_2d, edge_01, rot_270_matrix, Vec2.sub_def, mat2_mulVec_eq,
        Mat2.mulVec, Mat2.det, Mat2.inv, pad_matrix, pad_vector, mat3_mul_eq,
        mat3_mulVec_eq, Mat3.mul, Mat3.mulVec]
      norm_num
    · simp only [input_2_in_01, frame_matrix, change_basis_matrix, rotation_matrix,
        translation_matrix, Mat3.new_translation, Mat3.new_rotation, ha,
        change_basis_2d, edge_01, rot_270_matrix, Vec2.sub_def, mat2_mulVec_eq,
        Mat2.mulVec, Mat2.det, Mat2.inv, pad_matrix, pad_vector, mat3_mul_eq,
        mat3_mulVec_eq, Mat3.mul, Mat3.mulVec]
      norm_num
    · simp only [output_2_in_01, frame_matrix, change_basis_matrix, rotation_matrix,
        translation_matrix, Mat3.new_translation, Mat3.new_rotation, ha,
        change_basis_2d, edge_01, rot_270_matrix, Vec2.sub_def, mat2_mulVec_eq,
        Mat2.mulVec, Mat2.det, Mat2.inv, pad_matrix, pad_vector, mat3_mul_eq,
        mat3_mulVec_eq, Mat3.mul, Mat3.mulVec]
      norm_num
  exact ⟨hs, C6_identity_case _ hs⟩

/-! ### Locator lemmas: stability of the sort, counting, distinctness -/

/-- Inserting `a` with `orderedInsert marker_le` does not disturb the sublist
of markers having any fixed precedence `k`: `a` lands before every
equal-precedence element it is compared against only when it must, i.e. the
insertion behaves like consing `a` as far as each precedence class is
concerned. -/
theorem filter_orderedInsert_precedence (k : ℕ) (a : Marker) (l : List Marker) :
    ((l.orderedInsert marker_le a).filter fun m => get_precedence m.pixel = k) =
      ((a :: l).filter fun m => get_precedence m.pixel = k) := by
  induction l with
  | nil => rfl
  | cons b t ih =>
    rw [List.orderedInsert]
    by_cases hab : marker_le a b
    · rw [if_pos hab]
    · rw [if_neg hab]
      have hba : get_precedence b.pixel < get_precedence a.pixel :=
        Nat.lt_of_not_le hab
      by_cases hbk : get_precedence b.pixel = k
      · have hak : ¬get_precedence a.pixel = k := by omega
        simp [List.filter_cons, hbk, hak, ih]
      · simp [List.filter_cons, hbk, ih]

/-- The insertion sort by precedence is stable: it permutes markers without
reordering any class of equal precedence. -/
theorem filter_insertionSort_precedence (k : ℕ) (l : List Marker) :
    ((l.insertionSort marker_le).filter fun m => get_precedence m.pixel = k) =
      (l.filter fun m => get_precedence m.pixel = k) := by
  induction l with
  | nil => rfl
  | cons a t ih =>
    rw [List.insertionSort, filter_orderedInsert_precedence]
    simp [List.filter_cons, ih]

theorem length_filterMap_guard {α β : Type} (P : α → Prop) [DecidablePred P]
    (g : α → β) (l : List α) :
    (l.filterMap fun a => if P a then some (g a) else none).length =
      (l.filter fun a => P a).length := by
  induction l with
  | nil => rfl
  | cons a t ih =>
    by_cases h : P a <;> simp [List.filterMap_cons, List.filter_cons, h, ih]

theorem length_filter_range_eq_card (n : ℕ) (P : ℕ → Prop) [DecidablePred P] :
    ((List.range n).filter fun a => P a).length =
      ((Finset.range n).filter P).card := by
  induction n with
  | zero => rfl
  | succ n ih =>
    rw [List.range_succ, List.filter_append, List.length_append, Finset.range_succ,
      Finset.filter_insert]
    by_cases h : P n
    · rw [if_pos h, Finset.card_insert_of_not_mem
        (fun hmem => absurd (Finset.mem_filter.mp hmem).1 Finset.not_mem_range_self)]
      simp [List.filter_cons, h, ih]
    · rw [if_neg h]
      simp [List.filter_cons, h, ih]

theorem sum_map_range_eq_sum (n : ℕ) (f : ℕ → ℕ) :
    ((List.range n).map f).sum = ∑ x ∈ Finset.range n, f x := by
  induction n with
  | zero => rfl
  | succ n ih =>
    rw [List.range_succ, List.map_append, List.sum_append, Finset.sum_range_succ, ih]
    simp

theorem card_filter_product (w h : ℕ) (P : ℕ → ℕ → Prop)
    [∀ x y, Decidable (P x y)] :
    (((Finset.range w) ×ˢ (Finset.range h)).filter fun q => P q.1 q.2).card =
      ∑ x ∈ Finset.range w, ((Finset.range h).filter fun y => P x y).card := by
  rw [Finset.card_filter, Finset.sum_product]
  exact Finset.sum_congr rfl fun x _ => (Finset.card_filter _ _).symm

/-- The discovery scan finds exactly one marker per non-background pixel. -/
theorem discovered_markers_length (image : Image) :
    (discovered_markers image).length =
      (((Finset.range image.width) ×ˢ (Finset.range image.height)).filter
        fun q => image.pixel q.1 q.2 ≠ ignore_color).card := by
  rw [discovered_markers, List.length_flatMap,
    card_filter_product image.width image.height
      (fun x y => image.pixel x y ≠ ignore_color),
    ← sum_map_range_eq_sum]
  congr 1
  congr 1
  funext x
  rw [Function.comp_apply,
    length_filterMap_guard (fun y => image.pixel x y ≠ ignore_color)
      (fun y => (⟨image.pixel x y, ⟨x, y⟩⟩ : Marker)),
    length_filter_range_eq_card]

/-- Any two distinct markers produced by the scan sit at distinct pixel
positions. -/
theorem discovered_markers_pairwise (image : Image) :
    List.Pairwise (fun a b : Marker => a.position ≠ b.position)
      (discovered_markers image) := by
  rw [discovered_markers, List.pairwise_flatMap]
  constructor
  · intro x _
    rw [List.pairwise_filterMap]
    refine List.Pairwise.imp ?_ (List.pairwise_lt_range _)
    intro y1 y2 hlt m hm m2 hm2
    split_ifs at hm hm2 <;>
      simp only [Option.mem_def, Option.some.injEq] at hm hm2
    · subst hm
      subst hm2
      simp only [ne_eq, Position.mk.injEq, not_and]
      omega
    · cases hm2
    · cases hm
    · cases hm
  · refine List.Pairwise.imp ?_ (List.pairwise_lt_range _)
    intro x1 x2 hlt m hm m2 hm2
    obtain ⟨y1, -, hy1⟩ := List.mem_filterMap.mp hm
    obtain ⟨y2, -, hy2⟩ := List.mem_filterMap.mp hm2
    split_ifs at hy1 hy2
    simp only [Option.some.injEq] at hy1 hy2
    subst hy1
    subst hy2
    simp only [ne_eq, Position.mk.injEq, not_and]
    omega

/-- C8: the marker list produced by the locator's sort is ascending in the
precedence key `r + 256·g + 65536·b` (so for output indices `i < j` the key at
`i` is ≤ the key at `j`), ties keep their column-major discovery order (the
sort is stable: it fixes every precedence class of the discovery list), and
`find_markers` returns exactly the positions of this sorted list. -/
theorem C8_locator_sorted_stable (image : Image) :
    List.Sorted marker_le ((discovered_markers image).insertionSort marker_le) ∧
      (∀ k : ℕ,
        (((discovered_markers image).insertionSort marker_le).filter
            fun m => get_precedence m.pixel = k) =
          ((discovered_markers image).filter
            fun m => get_precedence m.pixel = k)) ∧
      find_markers image =
        ((discovered_markers image).insertionSort marker_le).map Marker.position :=
  ⟨List.sorted_insertionSort marker_le _,
    fun k => filter_insertionSort_precedence k _, rfl⟩

/-- C9: the locator returns exactly one position per pixel whose color is not
exactly (0,0,0) — the count of returned positions equals the count of
non-background pixels, and no position occurs twice. -/
theorem C9_locator_completeness (image : Image) :
    (find_markers image).length =
        (((Finset.range image.width) ×ˢ (Finset.range image.height)).filter
          fun q => image.pixel q.1 q.2 ≠ ignore_color).card ∧
      (find_markers image).Nodup := by
  constructor
  · rw [find_markers, List.length_map, List.length_insertionSort,
      discovered_markers_length]
  · have hp : List.Pairwise (fun a b : Marker => a.position ≠ b.position)
        ((discovered_markers image).insertionSort marker_le) :=
      ((List.perm_insertionSort marker_le _).pairwise_iff
        (fun h => Ne.symm h)).mpr (discovered_markers_pairwise image)
    exact List.Pairwise.map Marker.position (fun a b h => h) hp

/-- Witness for `C5_identical_triangles` on a concrete 3-marker list. -/
theorem C5_identical_triangles_witness :
    main_triangles [⟨0, 0⟩, ⟨1, 0⟩, ⟨0, 1⟩] =
        .ok (make_triangle ⟨0, 0⟩ ⟨1, 0⟩ ⟨0, 1⟩, make_triangle ⟨0, 0⟩ ⟨1, 0⟩ ⟨0, 1⟩) ∧
      (make_triangle ⟨0, 0⟩ ⟨1, 0⟩ ⟨0, 1⟩, make_triangle ⟨0, 0⟩ ⟨1, 0⟩ ⟨0, 1⟩).1 =
        (make_triangle ⟨0, 0⟩ ⟨1, 0⟩ ⟨0, 1⟩, make_triangle ⟨0, 0⟩ ⟨1, 0⟩ ⟨0, 1⟩).2 :=
  ⟨rfl, C5_identical_triangles [⟨0, 0⟩, ⟨1, 0⟩, ⟨0, 1⟩] _ rfl⟩

end
